import Mathlib

/-!
Verification of the transfer-strategy selection and streaming-drain protocol of the
idb gRPC client (idb/client/grpc.py). Each client operation is embedded as a function
producing the ordered trace of stream events it performs (stream opens, frame sends,
end-of-stream signals, terminal receives, inbound untar consumption, unary calls and
stream closes), together with the error it raises, if any. Helpers that live outside
the embedded file (drain_to_stream, generate_tar, create_tar, generate_binary_chunks,
generate_io_chunks) are modelled from the specification and marked as such.
-/

namespace Idb

/-- A byte chunk, as a list of byte values. -/
abbrev Bytes := List Nat

/-- Install destinations (InstallRequest.APP / XCTEST / DYLIB / DSYM / FRAMEWORK). -/
inductive Destination
  | app
  | xctest
  | dylib
  | dsym
  | framework
  deriving DecidableEq, Repr

/-- The Payload proto message: exactly one of url, file_path or data is set. -/
inductive Payload
  | url (u : String)
  | file_path (p : String)
  | data (d : Bytes)
  deriving DecidableEq, Repr

/-- One frame sent over a stream, per operation, mirroring the proto requests built
in grpc.py. -/
inductive Frame
  | installMeta (destination : Destination)
  | installPayload (payload : Payload)
  | pushMeta (bundle_id : String) (dst_path : String)
  | pushPayload (payload : Payload)
  | addMediaReq (payload : Payload)
  | pullReq (bundle_id : String) (src_path : String) (dst_path : Option String)
  | hidEvent (event : Nat)
  | contactsUpdateReq (payload : Payload)
  deriving DecidableEq, Repr

/-- Observable stream-level events of one client call, in order. -/
inductive Event
  | openStream
  | send (f : Frame)
  | endStream
  | recvResponse
  | untar (output_path : String)
  | unaryCall (f : Frame)
  | closeStream
  deriving DecidableEq, Repr

/-- The bundle argument of install: either a Python str (path or URL) or an
in-memory byte source, represented by the list of reads it yields. -/
inductive Bundle
  | str (s : String)
  | ioSource (reads : List Bytes)

/-- Exceptions relevant to the client: the three transport error types caught by
log_and_handle_exceptions, the domain error IdbException, and the FileNotFoundError
raised by Path.resolve with strict=True. -/
inductive PyError
  | grpcError (msg : String)
  | protocolError (msg : String)
  | streamTerminated (msg : String)
  | idbException (msg : String)
  | fileNotFoundError (path : String)
  deriving DecidableEq, Repr

/-- True exactly for the single domain error type of the client. -/
def isDomainError : PyError → Bool
  | PyError.idbException _ => true
  | _ => false

/-- Ambient state of one call: companion locality (companion_info.is_local),
the filesystem resolution of Path(s).resolve with strict=True (none means the
path does not exist and FileNotFoundError is raised), and the chunked content
of each file, abstracting reads performed by the tar and chunking helpers. -/
structure Env where
  is_local : Bool
  resolve : String → Option String
  file_chunks : String → List Bytes

/-- Characters urllib.parse accepts inside a URL scheme. -/
def scheme_char (c : Char) : Bool :=
  c.isAlpha || c.isDigit || c == '+' || c == '-' || c == '.'

/-- Scan the remainder of the string: a colon terminates a valid scheme, any
non-scheme character before a colon means there is no scheme. -/
def scheme_scan : List Char → Bool
  | [] => false
  | c :: rest => if c = ':' then true else if scheme_char c then scheme_scan rest else false

/-- Whether urllib.parse.urlparse(s).scheme is non-empty: there is a colon at a
positive position and every character before it is a scheme character. -/
def url_has_scheme (s : String) : Bool :=
  match s.toList with
  | [] => false
  | c :: rest => if scheme_char c then scheme_scan rest else false

/-- Modelled from the spec: the archive entry header written by TarContainerCodec
for one input path (relative path, with an own-subfolder qualification when
place_in_subfolders is set). Header contents are abstracted as the flag followed
by the byte values of the path. -/
def tarHeader (p : String) (place_in_subfolders : Bool) : Bytes :=
  (if place_in_subfolders then 1 else 0) :: p.toList.map Char.toNat

/-- Modelled from the spec: generate_tar (idb.common.tar, not under src/) packs the
given paths into a streaming archive, one header followed by the content chunks per
entry, in input order; with place_in_subfolders each top-level path becomes its own
subfolder. Zero paths produce zero chunks. -/
def generate_tar (env : Env) (paths : List String) (place_in_subfolders : Bool) : List Bytes :=
  match paths with
  | [] => []
  | p :: rest => (tarHeader p place_in_subfolders :: env.file_chunks p) ++ generate_tar env rest place_in_subfolders

/-- Concatenation of a list of byte chunks. -/
def joinBytes : List Bytes → Bytes
  | [] => []
  | b :: rest => b ++ joinBytes rest

/-- Modelled from the spec: create_tar (idb.common.tar, not under src/) materializes
the whole archive for the given paths as one byte string. -/
def create_tar (env : Env) (paths : List String) : Bytes :=
  joinBytes (generate_tar env paths false)

/-- Modelled from the spec: drain_to_stream (idb.grpc.stream, not under src/), the
ChunkedStreamDrain engine: sends every frame of the generator in order, signals
end-of-stream, then performs exactly one terminal receive and returns the response. -/
def drain_to_stream (generator : List Frame) : List Event :=
  generator.map Event.send ++ [Event.endStream, Event.recvResponse]

/-- Modelled from the spec: generate_binary_chunks (idb.common.install, not under
src/), the FilesystemPath plus Remote strategy: archive-chunk the resolved path and
wrap each chunk as an InstallRequest data payload. -/
def generate_binary_chunks (env : Env) (path : String) (_destination : Destination) : List Frame :=
  (generate_tar env [path] false).map (fun chunk => Frame.installPayload (Payload.data chunk))

/-- Modelled from the spec: generate_io_chunks (idb.common.install, not under src/),
the ContentChunker strategy: each read of the in-memory source becomes one
InstallRequest data payload, forward-only, in order. -/
def generate_io_chunks (reads : List Bytes) : List Frame :=
  reads.map (fun chunk => Frame.installPayload (Payload.data chunk))

/-- The final block of _install_to_destination: open the install stream, send the
destination metadata frame, then drain the prepared generator. -/
def install_stream (destination : Destination) (generator : List Frame) : List Event :=
  [Event.openStream, Event.send (Frame.installMeta destination)] ++
    drain_to_stream generator ++ [Event.closeStream]

/-- _install_to_destination: if the bundle is a str whose URL parse has a scheme,
a url-payload request is prepared inside a vestigial stream (opened and closed
unused); otherwise the path is resolved strictly (raising FileNotFoundError when
missing), and either a file_path-payload request is prepared inside a vestigial
stream (local companion) or the file is archive-chunked (remote companion);
a non-str bundle is content-chunked from memory. The prepared generator is then
streamed through the install stream. Returns the event trace and the raised
error, if any. -/
def install_to_destination (env : Env) (bundle : Bundle) (destination : Destination) :
    List Event × Option PyError :=
  match bundle with
  | Bundle.str b =>
    if url_has_scheme b then
      (Event.openStream :: Event.closeStream ::
        install_stream destination [Frame.installPayload (Payload.url b)], none)
    else
      match env.resolve b with
      | none => ([], some (PyError.fileNotFoundError b))
      | some file_path =>
        if env.is_local then
          (Event.openStream :: Event.closeStream ::
            install_stream destination [Frame.installPayload (Payload.file_path file_path)], none)
        else
          (install_stream destination (generate_binary_chunks env file_path destination), none)
  | Bundle.ioSource reads =>
    (install_stream destination (generate_io_chunks reads), none)

/-- push: open the push stream, send the inner metadata frame (bundle id and
destination path), then either send one file_path-payload frame per source path
(local companion) followed by end-of-stream and one receive, or drain the
archive-chunked data frames over all source paths (remote companion). -/
def push (env : Env) (src_paths : List String) (bundle_id : String) (dest_path : String) :
    List Event :=
  Event.openStream :: Event.send (Frame.pushMeta bundle_id dest_path) ::
    ((if env.is_local then
        src_paths.map (fun p => Event.send (Frame.pushPayload (Payload.file_path p)))
          ++ [Event.endStream, Event.recvResponse]
      else
        drain_to_stream
          ((generate_tar env src_paths false).map
            (fun chunk => Frame.pushPayload (Payload.data chunk))))
      ++ [Event.closeStream])

/-- pull: open the pull stream, send one request naming bundle id and source path,
including the destination path only for a local companion, end the stream, then
either perform the single terminal receive (local) or consume the inbound chunk
stream through drain_untar into the destination path (remote). -/
def pull (env : Env) (bundle_id : String) (src_path : String) (dest_path : String) :
    List Event :=
  Event.openStream ::
    Event.send (Frame.pullReq bundle_id src_path
      (if env.is_local then some dest_path else none)) ::
    Event.endStream ::
    ((if env.is_local then [Event.recvResponse] else [Event.untar dest_path]) ++
      [Event.closeStream])

/-- add_media: open the add_media stream, then either send one file_path-payload
frame per input path in order followed by end-of-stream and one receive (local
companion), or drain the data frames of the archive over all input paths packed
with place_in_subfolders set (remote companion). -/
def add_media (env : Env) (file_paths : List String) : List Event :=
  Event.openStream ::
    ((if env.is_local then
        file_paths.map (fun p => Event.send (Frame.addMediaReq (Payload.file_path p)))
          ++ [Event.endStream, Event.recvResponse]
      else
        drain_to_stream
          ((generate_tar env file_paths true).map
            (fun chunk => Frame.addMediaReq (Payload.data chunk))))
      ++ [Event.closeStream])

/-- hid: open the hid stream, translate every input event one-to-one to a grpc
event frame and drain them, then perform one more receive. -/
def hid (events : List Nat) : List Event :=
  Event.openStream ::
    (drain_to_stream (events.map Frame.hidEvent) ++
      [Event.recvResponse, Event.closeStream])

/-- contacts_update: materialize the whole archive of the contacts path with
create_tar and send it as the data payload of a single unary request; no stream
is opened and companion locality is not consulted. -/
def contacts_update (env : Env) (contacts_path : String) : List Event :=
  [Event.unaryCall (Frame.contactsUpdateReq (Payload.data (create_tar env [contacts_path])))]

/-- The exception translation performed by the except clauses of
log_and_handle_exceptions: the three transport error types become IdbException
carrying the original message; everything else propagates unchanged. -/
def translate_exception : PyError → PyError
  | PyError.grpcError m => PyError.idbException m
  | PyError.protocolError m => PyError.idbException m
  | PyError.streamTerminated m => PyError.idbException m
  | e => e

/-- One decorated client call, split as Python executes it: the synchronous setup
performed inside the wrapper body (companion lookup, channel and stub creation,
creation of the coroutine object), and the coroutine body, which only runs when
the caller awaits the returned coroutine. -/
structure AsyncOp (α : Type) where
  setup : Except PyError Unit
  body : Except PyError α

/-- log_and_handle_exceptions: a synchronous wrapper whose try block covers the
setup and the creation of the coroutine, and which returns the un-awaited
coroutine on success. Only exceptions raised during setup reach its except
clauses. -/
def log_and_handle_exceptions {α : Type} (op : AsyncOp α) :
    Except PyError (Except PyError α) :=
  match op.setup with
  | Except.error e => Except.error (translate_exception e)
  | Except.ok _ => Except.ok op.body

/-- Awaiting a decorated call from the caller: errors of the wrapper propagate,
and on success the returned coroutine is awaited outside the wrapper, so its
errors propagate as raised by the body. -/
def awaitCall {α : Type} (op : AsyncOp α) : Except PyError α :=
  match log_and_handle_exceptions op with
  | Except.error e => Except.error e
  | Except.ok r => r

/-- Frames sent over the stream of a trace, in order. -/
def sentFrames : List Event → List Frame
  | [] => []
  | Event.openStream :: tr => sentFrames tr
  | Event.send f :: tr => f :: sentFrames tr
  | Event.endStream :: tr => sentFrames tr
  | Event.recvResponse :: tr => sentFrames tr
  | Event.untar _ :: tr => sentFrames tr
  | Event.unaryCall _ :: tr => sentFrames tr
  | Event.closeStream :: tr => sentFrames tr

/-- Payloads of the payload-carrying frames of a frame list, in order; metadata
frames, pull requests and hid events carry no payload. -/
def payloadsOf : List Frame → List Payload
  | [] => []
  | Frame.installMeta _ :: fs => payloadsOf fs
  | Frame.installPayload p :: fs => p :: payloadsOf fs
  | Frame.pushMeta _ _ :: fs => payloadsOf fs
  | Frame.pushPayload p :: fs => p :: payloadsOf fs
  | Frame.addMediaReq p :: fs => p :: payloadsOf fs
  | Frame.pullReq _ _ _ :: fs => payloadsOf fs
  | Frame.hidEvent _ :: fs => payloadsOf fs
  | Frame.contactsUpdateReq p :: fs => p :: payloadsOf fs

/-- Payloads of the frames sent over the stream of a trace, in order. -/
def payloadFrames (tr : List Event) : List Payload :=
  payloadsOf (sentFrames tr)

/-- Number of stream opens in a trace. -/
def openCount : List Event → Nat
  | [] => 0
  | Event.openStream :: tr => openCount tr + 1
  | Event.send _ :: tr => openCount tr
  | Event.endStream :: tr => openCount tr
  | Event.recvResponse :: tr => openCount tr
  | Event.untar _ :: tr => openCount tr
  | Event.unaryCall _ :: tr => openCount tr
  | Event.closeStream :: tr => openCount tr

/-- Number of end-of-stream signals in a trace. -/
def endCount : List Event → Nat
  | [] => 0
  | Event.openStream :: tr => endCount tr
  | Event.send _ :: tr => endCount tr
  | Event.endStream :: tr => endCount tr + 1
  | Event.recvResponse :: tr => endCount tr
  | Event.untar _ :: tr => endCount tr
  | Event.unaryCall _ :: tr => endCount tr
  | Event.closeStream :: tr => endCount tr

/-- Number of terminal receives in a trace. -/
def recvCount : List Event → Nat
  | [] => 0
  | Event.openStream :: tr => recvCount tr
  | Event.send _ :: tr => recvCount tr
  | Event.endStream :: tr => recvCount tr
  | Event.recvResponse :: tr => recvCount tr + 1
  | Event.untar _ :: tr => recvCount tr
  | Event.unaryCall _ :: tr => recvCount tr
  | Event.closeStream :: tr => recvCount tr

/-- Destination paths of the inbound untar consumptions of a trace, in order. -/
def untarTargets : List Event → List String
  | [] => []
  | Event.openStream :: tr => untarTargets tr
  | Event.send _ :: tr => untarTargets tr
  | Event.endStream :: tr => untarTargets tr
  | Event.recvResponse :: tr => untarTargets tr
  | Event.untar p :: tr => p :: untarTargets tr
  | Event.unaryCall _ :: tr => untarTargets tr
  | Event.closeStream :: tr => untarTargets tr

/-- True when no terminal receive occurs before the first end-of-stream signal
of a trace. -/
def noRecvBeforeEnd : List Event → Bool
  | [] => true
  | Event.openStream :: tr => noRecvBeforeEnd tr
  | Event.send _ :: tr => noRecvBeforeEnd tr
  | Event.endStream :: _ => true
  | Event.recvResponse :: _ => false
  | Event.untar _ :: tr => noRecvBeforeEnd tr
  | Event.unaryCall _ :: tr => noRecvBeforeEnd tr
  | Event.closeStream :: tr => noRecvBeforeEnd tr

/-- A concrete filesystem where only /bundle.app exists. -/
def fsResolve : String → Option String :=
  fun s => if s = "/bundle.app" then some "/abs/bundle.app" else none

/-- Concrete file contents, chunked. -/
def fsChunks : String → List Bytes :=
  fun _ => [[0, 1], [2]]

/-- A concrete local-companion environment. -/
def envL : Env := ⟨true, fsResolve, fsChunks⟩

/-- A concrete remote-companion environment over the same filesystem. -/
def envR : Env := ⟨false, fsResolve, fsChunks⟩

theorem sentFrames_append (a b : List Event) :
    sentFrames (a ++ b) = sentFrames a ++ sentFrames b := by
  induction a with
  | nil => rfl
  | cons e tr ih => cases e <;> simp [sentFrames, ih]

theorem sentFrames_map_send (fs : List Frame) :
    sentFrames (fs.map Event.send) = fs := by
  induction fs with
  | nil => rfl
  | cons f fs ih => simp [sentFrames, ih]

theorem sentFrames_map_send_comp {α : Type} (f : α → Frame) (l : List α) :
    sentFrames (l.map (fun a => Event.send (f a))) = l.map f := by
  induction l with
  | nil => rfl
  | cons a l ih => simp [sentFrames, ih]

theorem recvCount_append (a b : List Event) :
    recvCount (a ++ b) = recvCount a + recvCount b := by
  induction a with
  | nil => simp [recvCount]
  | cons e tr ih => cases e <;> simp [recvCount, ih, Nat.add_right_comm]

theorem recvCount_map_send (fs : List Frame) :
    recvCount (fs.map Event.send) = 0 := by
  induction fs with
  | nil => rfl
  | cons f fs ih => simp [recvCount, ih]

theorem recvCount_map_send_comp {α : Type} (f : α → Frame) (l : List α) :
    recvCount (l.map (fun a => Event.send (f a))) = 0 := by
  induction l with
  | nil => rfl
  | cons a l ih => simp [recvCount, ih]

theorem noRecvBeforeEnd_map_send (fs : List Frame) (tr : List Event) :
    noRecvBeforeEnd (fs.map Event.send ++ tr) = noRecvBeforeEnd tr := by
  induction fs with
  | nil => rfl
  | cons f fs ih => simp [noRecvBeforeEnd, ih]

theorem noRecvBeforeEnd_map_send_comp {α : Type} (f : α → Frame) (l : List α)
    (tr : List Event) :
    noRecvBeforeEnd (l.map (fun a => Event.send (f a)) ++ tr) = noRecvBeforeEnd tr := by
  induction l with
  | nil => rfl
  | cons a l ih => simp [noRecvBeforeEnd, ih]

theorem payloadsOf_map_install {α : Type} (f : α → Payload) (l : List α) :
    payloadsOf (l.map (fun a => Frame.installPayload (f a))) = l.map f := by
  induction l with
  | nil => rfl
  | cons a l ih => simp [payloadsOf, ih]

theorem payloadFrames_install_stream (destination : Destination) (generator : List Frame) :
    payloadFrames (install_stream destination generator) = payloadsOf generator := by
  simp [install_stream, drain_to_stream, payloadFrames, sentFrames, sentFrames_append,
    sentFrames_map_send, payloadsOf]

theorem recvCount_install_stream (destination : Destination) (generator : List Frame) :
    recvCount (install_stream destination generator) = 1 := by
  simp [install_stream, drain_to_stream, recvCount, recvCount_append, recvCount_map_send]

theorem noRecvBeforeEnd_install_stream (destination : Destination) (generator : List Frame) :
    noRecvBeforeEnd (install_stream destination generator) = true := by
  simp [install_stream, drain_to_stream, noRecvBeforeEnd, noRecvBeforeEnd_map_send]

/-- C1: for every install call, the payload frames are determined by the decision
table on the bundle-source variant and companion locality: an in-memory bundle
always yields data chunks of its reads; a string bundle yields a single url payload
when its URL parse has a scheme, one file_path payload of the resolved absolute
path when the companion is local, and the archive data chunks of the resolved path
when the companion is remote. In particular a local-companion path never yields
data chunks and an in-memory bundle never yields file_path payloads. -/
theorem install_payload_kind_table (env : Env) (destination : Destination)
    (b : String) (reads : List Bytes) :
    payloadFrames (install_to_destination env (Bundle.ioSource reads) destination).1
      = reads.map Payload.data ∧
    payloadFrames (install_to_destination env (Bundle.str b) destination).1
      = (if url_has_scheme b then [Payload.url b]
         else
           match env.resolve b with
           | none => []
           | some fp =>
             if env.is_local then [Payload.file_path fp]
             else (generate_tar env [fp] false).map Payload.data) := by
  constructor
  · simp [install_to_destination, generate_io_chunks, payloadFrames_install_stream,
      payloadsOf_map_install]
  · by_cases hs : url_has_scheme b
    · simp [install_to_destination, hs, payloadFrames, sentFrames,
        payloadFrames_install_stream, payloadsOf]
    · cases hr : env.resolve b with
      | none => simp [install_to_destination, hs, hr, payloadFrames, sentFrames, payloadsOf]
      | some fp =>
        cases hl : env.is_local with
        | true =>
          simp [install_to_destination, hs, hr, hl, payloadFrames, sentFrames,
            payloadFrames_install_stream, payloadsOf]
        | false =>
          simp [install_to_destination, hs, hr, hl, generate_binary_chunks,
            payloadFrames_install_stream, payloadsOf_map_install]

/-- C2: a transport error raised while the awaited coroutine body of a decorated
operation runs escapes to the caller untranslated, because the synchronous wrapper
log_and_handle_exceptions only guards the setup phase; the same error raised during
setup is translated into IdbException. The claim that every transport failure
reaches the caller wrapped into the domain error type fails on the code. -/
theorem transport_error_untranslated :
    awaitCall (AsyncOp.mk (Except.ok ())
        (Except.error (PyError.grpcError "stream reset") : Except PyError Unit))
      = Except.error (PyError.grpcError "stream reset") ∧
    isDomainError (PyError.grpcError "stream reset") = false ∧
    awaitCall (AsyncOp.mk (Except.error (PyError.grpcError "stream reset"))
        (Except.ok () : Except PyError Unit))
      = Except.error (PyError.idbException "stream reset") :=
  ⟨rfl, rfl, rfl⟩

/-- C3: an install whose bundle is a URL-scheme string, and an install of an
existing filesystem path with a local companion, each open the install stream
twice (a vestigial stream that only builds the request generator, then the actual
transfer stream), violating the at-most-one-stream invariant; a remote-companion
path install and the other operations open exactly one stream. -/
theorem install_two_stream_opens :
    openCount (install_to_destination envL (Bundle.str "http://host/app.ipa")
        Destination.app).1 = 2 ∧
    openCount (install_to_destination envL (Bundle.str "/bundle.app")
        Destination.app).1 = 2 ∧
    openCount (install_to_destination envR (Bundle.str "/bundle.app")
        Destination.app).1 = 1 ∧
    openCount (push envL ["/a"] "bid" "/dst") = 1 ∧
    openCount (pull envL "bid" "/s" "/d") = 1 ∧
    openCount (add_media envL ["/m"]) = 1 ∧
    openCount (hid [1]) = 1 := by
  decide

/-- C4 (counterexample): the hid operation performs two terminal receives, not
one: the receive performed by the drain and the explicit receive that follows it. -/
theorem hid_double_receive :
    recvCount (hid [7]) = 2 ∧ recvCount (hid [7]) ≠ 1 := by
  decide

/-- C4 (amended): in every operation no terminal receive happens before
end-of-stream is signaled; install (when it does not fail), push and add_media
receive the terminal response exactly once, pull receives exactly once with a
local companion and performs no terminal receive with a remote companion (the
inbound chunk stream is consumed instead), and hid performs exactly two receives. -/
theorem receive_after_end_discipline :
    (∀ (env : Env) (bundle : Bundle) (destination : Destination),
        noRecvBeforeEnd (install_to_destination env bundle destination).1 = true ∧
        recvCount (install_to_destination env bundle destination).1
          = (if (install_to_destination env bundle destination).2 = none then 1 else 0)) ∧
    (∀ (env : Env) (src_paths : List String) (bundle_id dest_path : String),
        noRecvBeforeEnd (push env src_paths bundle_id dest_path) = true ∧
        recvCount (push env src_paths bundle_id dest_path) = 1) ∧
    (∀ (env : Env) (file_paths : List String),
        noRecvBeforeEnd (add_media env file_paths) = true ∧
        recvCount (add_media env file_paths) = 1) ∧
    (∀ (env : Env) (bundle_id src_path dest_path : String),
        noRecvBeforeEnd (pull env bundle_id src_path dest_path) = true ∧
        recvCount (pull env bundle_id src_path dest_path)
          = (if env.is_local then 1 else 0)) ∧
    (∀ events : List Nat,
        noRecvBeforeEnd (hid events) = true ∧ recvCount (hid events) = 2) := by
  refine ⟨?_, ?_, ?_, ?_, ?_⟩
  · intro env bundle destination
    cases bundle with
    | str b =>
      by_cases hs : url_has_scheme b
      · simp [install_to_destination, hs, noRecvBeforeEnd, recvCount,
          noRecvBeforeEnd_install_stream, recvCount_install_stream]
      · cases hr : env.resolve b with
        | none => simp [install_to_destination, hs, hr, noRecvBeforeEnd, recvCount]
        | some fp =>
          cases hl : env.is_local with
          | true =>
            simp [install_to_destination, hs, hr, hl, noRecvBeforeEnd, recvCount,
              noRecvBeforeEnd_install_stream, recvCount_install_stream]
          | false =>
            simp [install_to_destination, hs, hr, hl,
              noRecvBeforeEnd_install_stream, recvCount_install_stream]
    | ioSource reads =>
      simp [install_to_destination, noRecvBeforeEnd_install_stream,
        recvCount_install_stream]
  · intro env src_paths bundle_id dest_path
    cases hl : env.is_local with
    | true =>
      simp [push, hl, drain_to_stream, noRecvBeforeEnd, recvCount,
        noRecvBeforeEnd_map_send_comp, recvCount_append, recvCount_map_send_comp]
    | false =>
      simp [-List.map_map, push, hl, drain_to_stream, noRecvBeforeEnd, recvCount,
        noRecvBeforeEnd_map_send, recvCount_append, recvCount_map_send]
  · intro env file_paths
    cases hl : env.is_local with
    | true =>
      simp [add_media, hl, drain_to_stream, noRecvBeforeEnd, recvCount,
        noRecvBeforeEnd_map_send_comp, recvCount_append, recvCount_map_send_comp]
    | false =>
      simp [-List.map_map, add_media, hl, drain_to_stream, noRecvBeforeEnd, recvCount,
        noRecvBeforeEnd_map_send, recvCount_append, recvCount_map_send]
  · intro env bundle_id src_path dest_path
    cases hl : env.is_local <;>
      simp [pull, hl, noRecvBeforeEnd, recvCount]
  · intro events
    simp [-List.map_map, hid, drain_to_stream, noRecvBeforeEnd, recvCount,
      noRecvBeforeEnd_map_send, recvCount_append, recvCount_map_send]

/-- C5 (counterexample): an install of a path that does not exist fails with the
raw FileNotFoundError, which is not the domain error type, although no stream is
opened before the failure. -/
theorem missing_path_error_not_domain :
    (install_to_destination envL (Bundle.str "/missing") Destination.app).2
      = some (PyError.fileNotFoundError "/missing") ∧
    isDomainError (PyError.fileNotFoundError "/missing") = false ∧
    openCount (install_to_destination envL (Bundle.str "/missing") Destination.app).1 = 0 := by
  decide

/-- C5 (amended): an install whose bundle is a string without a URL scheme that
does not resolve to an existing entry fails immediately with an untranslated
FileNotFoundError, with an empty event trace, so before any stream is opened. -/
theorem missing_path_fails_before_open (env : Env) (b : String)
    (destination : Destination) (hs : url_has_scheme b = false)
    (hr : env.resolve b = none) :
    install_to_destination env (Bundle.str b) destination
      = ([], some (PyError.fileNotFoundError b)) ∧
    openCount (install_to_destination env (Bundle.str b) destination).1 = 0 := by
  simp [install_to_destination, hs, hr, openCount]

/-- Witness for the amended C5 theorem at a concrete missing path. -/
theorem missing_path_fails_witness :
    url_has_scheme "/missing" = false ∧ envL.resolve "/missing" = none ∧
    install_to_destination envL (Bundle.str "/missing") Destination.app
      = ([], some (PyError.fileNotFoundError "/missing")) :=
  ⟨by decide, by decide,
    (missing_path_fails_before_open envL "/missing" Destination.app
      (by decide) (by decide)).1⟩

/-- C6: every push call sends exactly one metadata frame, carrying the bundle id
and destination path, as the first frame, before any payload frame; with a local
companion it is followed by one file_path payload frame per source path in input
order with no chunking, and with a remote companion by the data chunks of the one
archive packed over all source paths. -/
theorem push_metadata_then_payload (env : Env) (src_paths : List String)
    (bundle_id dest_path : String) :
    sentFrames (push env src_paths bundle_id dest_path)
      = Frame.pushMeta bundle_id dest_path ::
          (if env.is_local then
             src_paths.map (fun p => Frame.pushPayload (Payload.file_path p))
           else
             (generate_tar env src_paths false).map
               (fun chunk => Frame.pushPayload (Payload.data chunk))) := by
  cases hl : env.is_local with
  | true =>
    simp [-List.map_map, push, hl, sentFrames, sentFrames_append,
      sentFrames_map_send_comp]
  | false =>
    simp [-List.map_map, push, hl, drain_to_stream, sentFrames, sentFrames_append,
      sentFrames_map_send]

/-- C7: the pull request frame names the bundle id and source path, and carries
the destination path exactly when the companion is local; the client sends no
payload frames in either case; with a local companion it performs one terminal
receive and no inbound untar, and with a remote companion no terminal receive
and one untar of the inbound chunk stream into the destination path. -/
theorem pull_request_shape (env : Env) (bundle_id src_path dest_path : String) :
    sentFrames (pull env bundle_id src_path dest_path)
      = [Frame.pullReq bundle_id src_path
          (if env.is_local then some dest_path else none)] ∧
    payloadFrames (pull env bundle_id src_path dest_path) = [] ∧
    recvCount (pull env bundle_id src_path dest_path)
      = (if env.is_local then 1 else 0) ∧
    untarTargets (pull env bundle_id src_path dest_path)
      = (if env.is_local then [] else [dest_path]) := by
  cases hl : env.is_local <;>
    simp [pull, hl, sentFrames, payloadFrames, payloadsOf, recvCount, untarTargets]

/-- C8 (counterexample): contacts_update does not follow the streaming skeleton:
it opens no stream, performs no receive, produces the same trace for a local and
a remote companion, and sends one unary request carrying the fully materialized
archive bytes. -/
theorem contacts_update_opens_no_stream :
    openCount (contacts_update envL "/contacts.vcf") = 0 ∧
    recvCount (contacts_update envL "/contacts.vcf") = 0 ∧
    contacts_update envL "/contacts.vcf" = contacts_update envR "/contacts.vcf" ∧
    contacts_update envL "/contacts.vcf"
      = [Event.unaryCall (Frame.contactsUpdateReq
          (Payload.data (create_tar envL ["/contacts.vcf"])))] := by
  decide

/-- C8 (amended): contacts_update materializes the whole archive of the contacts
path with create_tar and sends it as one unary request, independently of companion
locality; it opens no stream and sends no stream frames. -/
theorem contacts_update_unary_materialized (env : Env) (contacts_path : String)
    (b : Bool) :
    contacts_update env contacts_path
      = [Event.unaryCall (Frame.contactsUpdateReq
          (Payload.data (create_tar env [contacts_path])))] ∧
    openCount (contacts_update env contacts_path) = 0 ∧
    sentFrames (contacts_update env contacts_path) = [] ∧
    contacts_update (Env.mk b env.resolve env.file_chunks) contacts_path
      = contacts_update env contacts_path := by
  refine ⟨rfl, ?_, ?_, rfl⟩ <;> simp [contacts_update, openCount, sentFrames]

/-- C9: with a remote companion, add_media packs all input paths into one archive
with place_in_subfolders set and sends its chunks as data frames only; with a
local companion it sends exactly one file_path payload frame per input path, in
input order, followed by end-of-stream, one terminal receive and the stream
close. -/
theorem add_media_framing (env : Env) (file_paths : List String) :
    add_media env file_paths
      = Event.openStream ::
          ((if env.is_local then
              file_paths.map (fun p => Frame.addMediaReq (Payload.file_path p))
            else
              (generate_tar env file_paths true).map
                (fun chunk => Frame.addMediaReq (Payload.data chunk))).map Event.send
            ++ [Event.endStream, Event.recvResponse, Event.closeStream]) := by
  cases hl : env.is_local <;>
    simp [add_media, hl, drain_to_stream]

/-- C10: a push with an empty list of source paths succeeds as a no-op in either
locality: its trace opens the stream, sends exactly the metadata frame and no
payload frames, ends the stream, performs one terminal receive and closes. -/
theorem push_empty_paths_no_op (env : Env) (bundle_id dest_path : String) :
    push env [] bundle_id dest_path
      = [Event.openStream, Event.send (Frame.pushMeta bundle_id dest_path),
         Event.endStream, Event.recvResponse, Event.closeStream] ∧
    sentFrames (push env [] bundle_id dest_path)
      = [Frame.pushMeta bundle_id dest_path] := by
  cases hl : env.is_local <;>
    simp [push, hl, drain_to_stream, generate_tar, sentFrames]

end Idb
